import Mathlib

/- Verification of the AI weather orchestrator in src/services/geminiService.ts.

   The service exposes two entry points:
     * testApiConnection : probes the oracle with a fixed prompt and reports a Bool;
     * fetchWeatherWithAI(coords, cityName, retries = 1, useSearch = true) :
       asks the oracle for a weather report, parses the JSON reply, stamps it with
       a timestamp, provenance sources and a realtime flag, and on failure either
       downgrades to non-search mode or backs off and retries.

   The embedding below models the oracle as an environment parameter: a function
   from the attempt index to the oracle's outcome for that attempt (an exception,
   or a reply carrying optional text and optional grounding chunks).  JSON.parse
   restricted to the declared response schema is likewise an abstract parameter
   `parse : String → Option WeatherCore`.  Each run returns, besides its result,
   a trace of events (invocations, oracle attempts, backoff delays) so that the
   temporal and resource claims can be stated about the trace. -/

namespace Climate

/-- The `current` object of the declared response schema. -/
structure CurrentWeather where
  temp : Int
  condition : String
  humidity : Int
  windSpeed : Int
  feelsLike : Int
  uvIndex : Int
deriving DecidableEq

/-- One entry of the `forecast` array of the declared response schema. -/
structure DailyForecast where
  date : String
  high : Int
  low : Int
  condition : String
deriving DecidableEq

/-- The six fields of the declared response schema: exactly what a well-formed
oracle reply parses to (`parsedData` in the source). -/
structure WeatherCore where
  locationName : String
  current : CurrentWeather
  forecast : List DailyForecast
  aiInsight : String
  clothingAdvice : String
  activityAdvice : String
deriving DecidableEq

/-- The `web` field of a grounding chunk: both subfields may be absent. -/
structure WebInfo where
  title : Option String
  uri : Option String
deriving DecidableEq

/-- One grounding chunk of the oracle's grounding metadata; `web` may be absent. -/
structure Chunk where
  web : Option WebInfo
deriving DecidableEq

/-- A provenance source as placed in the returned snapshot. -/
structure Source where
  title : String
  uri : String
deriving DecidableEq

/-- The object returned by a successful fetch: the spread parsed payload plus the
three injected fields `lastUpdated`, `sources`, `isRealtime`. -/
structure WeatherSnapshot where
  core : WeatherCore
  lastUpdated : String
  sources : List Source
  isRealtime : Bool
deriving DecidableEq

/-- Outcome of one `ai.models.generateContent` call inside `fetchWeatherWithAI`:
either the promise rejects, or it resolves to a response with `text` (possibly
absent) and `candidates[0].groundingMetadata.groundingChunks` (possibly absent). -/
inductive OracleResult where
  | throw : OracleResult
  | reply (text : Option String) (chunks : Option (List Chunk)) : OracleResult
deriving DecidableEq

deriving instance DecidableEq for Except

/-- The distinct failure causes of one attempt, plus the pre-attempt credential
failure.  `apiKeyMissing` is the `API_KEY_MISSING` error thrown before the try
block; `emptyResponse` is `AI_EMPTY_RESPONSE`; `parseError` is a JSON.parse
exception; `oracleThrow` is a rejection of the generateContent promise. -/
inductive FetchError where
  | apiKeyMissing : FetchError
  | emptyResponse : FetchError
  | parseError : FetchError
  | oracleThrow : FetchError
deriving DecidableEq

/-- Trace events of a run: an invocation of `fetchWeatherWithAI` with its
`retries` and `useSearch` arguments, an oracle call issued with the given
search flag, and a `delay(ms)` backoff. -/
inductive Event where
  | call (retries : Nat) (useSearch : Bool) : Event
  | oracleAttempt (useSearch : Bool) : Event
  | backoff (ms : Nat) : Event
deriving DecidableEq

/-- JS falsy test on `process.env.API_KEY`: absent or the empty string. -/
def keyMissing : Option String → Bool
  | none => true
  | some s => s.isEmpty

/-- JS `x || d` for a string-or-undefined `x`: the default is used when `x` is
absent or the empty string. -/
def jsOrElse : Option String → String → String
  | none, d => d
  | some s, d => if s.isEmpty then d else s

/-- Builds one provenance entry from a grounding chunk, with the source's
defaults: title `chunk.web?.title || '氣象來源'` and uri `chunk.web?.uri || '#'`. -/
def sourceOfChunk (c : Chunk) : Source :=
  { title := jsOrElse (c.web.bind WebInfo.title) "氣象來源"
    uri := jsOrElse (c.web.bind WebInfo.uri) "#" }

/-- Provenance extraction
`response.candidates?.[0]?.groundingMetadata?.groundingChunks?.map(...) || []`:
absent metadata or chunk list yields the empty list. -/
def extractSources : Option (List Chunk) → List Source
  | none => []
  | some cs => cs.map sourceOfChunk

/-- The body of the try block of `fetchWeatherWithAI` for one attempt: a thrown
oracle call fails the attempt; falsy `response.text` throws `AI_EMPTY_RESPONSE`;
a failing JSON.parse fails the attempt; otherwise the snapshot is assembled from
the parsed payload, the wall-clock stamp `now`, the extracted sources, and
`isRealtime = useSearch && sources.length > 0`. -/
def attemptStep (parse : String → Option WeatherCore) (r : OracleResult)
    (useSearch : Bool) (now : String) : Except FetchError WeatherSnapshot :=
  match r with
  | OracleResult.throw => Except.error FetchError.oracleThrow
  | OracleResult.reply none _ => Except.error FetchError.emptyResponse
  | OracleResult.reply (some t) chunks =>
    if t.isEmpty then Except.error FetchError.emptyResponse
    else
      match parse t with
      | none => Except.error FetchError.parseError
      | some core =>
        let sources := extractSources chunks
        Except.ok
          { core := core
            lastUpdated := now
            sources := sources
            isRealtime := useSearch && decide (0 < sources.length) }

/-- The non-search phase of `fetchWeatherWithAI`.  The source is one recursive
function; every recursive self-call it makes passes `useSearch = false`, so the
embedding factors the recursion into this loop, structurally recursive on the
retry budget, entered by `fetchWeatherWithAI` below.  Each iteration mirrors one
invocation with `useSearch = false`: re-read the credential, attempt the oracle
call, and on failure either `delay(1500)` and recurse with `retries - 1`, or
propagate the caught error when the budget is exhausted.  `k` is the attempt
index into the oracle environment. -/
def fetchNoSearch (apiKey : Option String) (parse : String → Option WeatherCore)
    (oracle : Nat → OracleResult) (now : String) :
    Nat → Nat → List Event × Except FetchError WeatherSnapshot
  | k, retries =>
    if keyMissing apiKey then
      ([Event.call retries false], Except.error FetchError.apiKeyMissing)
    else
      match attemptStep parse (oracle k) false now with
      | Except.ok snap =>
        ([Event.call retries false, Event.oracleAttempt false], Except.ok snap)
      | Except.error e =>
        match retries with
        | 0 => ([Event.call 0 false, Event.oracleAttempt false], Except.error e)
        | r + 1 =>
          let nx := fetchNoSearch apiKey parse oracle now (k + 1) r
          (Event.call (r + 1) false :: Event.oracleAttempt false ::
            Event.backoff 1500 :: nx.1, nx.2)

/-- The orchestrator `fetchWeatherWithAI` with the oracle and the JSON parser as
environment parameters.  With `useSearch = true`: missing credential throws before any
attempt; a successful attempt returns its snapshot; ANY caught error triggers
the single downgrade `fetchWeatherWithAI(coords, cityName, 0, false)`, embedded
as `fetchNoSearch` entered with retry budget 0 and the caught error discarded.
With `useSearch = false` the run is the non-search loop itself. -/
def fetchWeatherWithAI (apiKey : Option String) (parse : String → Option WeatherCore)
    (oracle : Nat → OracleResult) (now : String) (retries : Nat) (useSearch : Bool) :
    List Event × Except FetchError WeatherSnapshot :=
  if useSearch then
    if keyMissing apiKey then
      ([Event.call retries true], Except.error FetchError.apiKeyMissing)
    else
      match attemptStep parse (oracle 0) true now with
      | Except.ok snap =>
        ([Event.call retries true, Event.oracleAttempt true], Except.ok snap)
      | Except.error _ =>
        let nx := fetchNoSearch apiKey parse oracle now 1 0
        (Event.call retries true :: Event.oracleAttempt true :: nx.1, nx.2)
  else fetchNoSearch apiKey parse oracle now 0 retries

/-- Does the character list `s` start with the pattern `p`? -/
def charsStartWith : List Char → List Char → Bool
  | _, [] => true
  | [], _ :: _ => false
  | c :: cs, p :: ps => c == p && charsStartWith cs ps

/-- Does the character list `s` contain the pattern `p` as a contiguous run? -/
def charsContain : List Char → List Char → Bool
  | [], p => charsStartWith [] p
  | c :: cs, p => charsStartWith (c :: cs) p || charsContain cs p

/-- JS `s.includes(pat)`. -/
def strIncludes (s pat : String) : Bool := charsContain s.data pat.data

/-- Outcome of the single oracle call of `testApiConnection`: a rejection, or a
response whose `text` may be absent. -/
inductive TestOracle where
  | throw : TestOracle
  | reply (text : Option String) : TestOracle
deriving DecidableEq

/-- The probe `testApiConnection`: false when the credential is missing; inside the try,
a rejected oracle call is caught to false; an absent `response.text` makes
`.includes` throw, likewise caught to false; otherwise the reply text is tested
for the literal substring "OK". -/
def testApiConnection (apiKey : Option String) (oracle : TestOracle) : Bool :=
  if keyMissing apiKey then false
  else
    match oracle with
    | TestOracle.throw => false
    | TestOracle.reply none => false
    | TestOracle.reply (some s) => strIncludes s "OK"

/-- Is this event an oracle attempt (a network call)? -/
def isAttemptEvent : Event → Bool
  | Event.oracleAttempt _ => true
  | _ => false

/-- Is this event an oracle attempt issued with search enabled? -/
def isSearchAttemptEvent : Event → Bool
  | Event.oracleAttempt true => true
  | _ => false

/-- Number of oracle attempts (network calls) in a trace. -/
def attemptCount (evs : List Event) : Nat := evs.countP isAttemptEvent

/-- Number of search-enabled oracle attempts in a trace. -/
def searchAttemptCount (evs : List Event) : Nat := evs.countP isSearchAttemptEvent

/-- A concrete well-formed payload, used to instantiate theorems. -/
def sampleCore : WeatherCore :=
  { locationName := "Taipei"
    current := { temp := 20, condition := "sunny", humidity := 50,
                 windSpeed := 3, feelsLike := 21, uvIndex := 5 }
    forecast := []
    aiInsight := "i"
    clothingAdvice := "c"
    activityAdvice := "a" }

/-- A parser that accepts any text as `sampleCore`, for concrete runs. -/
def mockParse : String → Option WeatherCore := fun _ => some sampleCore

/-- A parser that rejects every text, for concrete runs. -/
def noParse : String → Option WeatherCore := fun _ => none

/-- An oracle whose every call rejects, for concrete runs. -/
def throwOracle : Nat → OracleResult := fun _ => OracleResult.throw

/-- An oracle that always replies with non-empty text and no grounding
metadata, for concrete runs. -/
def plainReplyOracle : Nat → OracleResult :=
  fun _ => OracleResult.reply (some "x") none

/-- An oracle that always replies with empty text, for concrete runs. -/
def emptyReplyOracle : Nat → OracleResult :=
  fun _ => OracleResult.reply (some "") none

/-- A concrete grounding chunk list: one chunk with a title and no uri, one
chunk without a `web` object. -/
def sampleChunks : List Chunk :=
  [{ web := some { title := some "T", uri := none } }, { web := none }]

/-- An oracle that always replies with non-empty text and the sample grounding
chunks, for concrete runs. -/
def chunkOracle : Nat → OracleResult :=
  fun _ => OracleResult.reply (some "x") (some sampleChunks)

section Lemmas

variable (apiKey : Option String) (parse : String → Option WeatherCore)
variable (oracle : Nat → OracleResult) (now : String)

/-- A non-search iteration with the credential missing fails at once. -/
theorem fetchNoSearch_key_missing (k retries : Nat) (h : keyMissing apiKey = true) :
    fetchNoSearch apiKey parse oracle now k retries =
      ([Event.call retries false], Except.error FetchError.apiKeyMissing) := by
  unfold fetchNoSearch
  simp [h]

/-- A non-search iteration whose attempt succeeds returns its snapshot. -/
theorem fetchNoSearch_ok (k retries : Nat) (snap : WeatherSnapshot)
    (h : keyMissing apiKey = false)
    (hs : attemptStep parse (oracle k) false now = Except.ok snap) :
    fetchNoSearch apiKey parse oracle now k retries =
      ([Event.call retries false, Event.oracleAttempt false], Except.ok snap) := by
  unfold fetchNoSearch
  simp [h, hs]

/-- A non-search iteration that fails with an exhausted budget propagates the error. -/
theorem fetchNoSearch_error_zero (k : Nat) (e : FetchError)
    (h : keyMissing apiKey = false)
    (he : attemptStep parse (oracle k) false now = Except.error e) :
    fetchNoSearch apiKey parse oracle now k 0 =
      ([Event.call 0 false, Event.oracleAttempt false], Except.error e) := by
  unfold fetchNoSearch
  simp [h, he]

/-- A non-search iteration that fails with budget left backs off and retries with
the budget decremented. -/
theorem fetchNoSearch_error_succ (k r : Nat) (e : FetchError)
    (h : keyMissing apiKey = false)
    (he : attemptStep parse (oracle k) false now = Except.error e) :
    fetchNoSearch apiKey parse oracle now k (r + 1) =
      (Event.call (r + 1) false :: Event.oracleAttempt false :: Event.backoff 1500 ::
        (fetchNoSearch apiKey parse oracle now (k + 1) r).1,
       (fetchNoSearch apiKey parse oracle now (k + 1) r).2) := by
  conv_lhs => unfold fetchNoSearch
  simp [h, he]

/-- With the credential present, a budget-0 non-search run makes exactly one
attempt, whatever its outcome. -/
theorem fetchNoSearch_zero_trace (k : Nat) (h : keyMissing apiKey = false) :
    (fetchNoSearch apiKey parse oracle now k 0).1 =
      [Event.call 0 false, Event.oracleAttempt false] := by
  unfold fetchNoSearch
  rcases hs : attemptStep parse (oracle k) false now with e | snap <;> simp [h, hs]

/-- Every trace of the non-search loop begins with its own invocation event. -/
theorem fetchNoSearch_trace_head (k retries : Nat) :
    ∃ t, (fetchNoSearch apiKey parse oracle now k retries).1 =
      Event.call retries false :: t := by
  unfold fetchNoSearch
  by_cases h : keyMissing apiKey = true
  · exact ⟨[], by simp [h]⟩
  · simp only [Bool.not_eq_true] at h
    rcases hs : attemptStep parse (oracle k) false now with e | snap
    · cases retries <;> simp [h, hs]
    · exact ⟨[Event.oracleAttempt false], by simp [h, hs]⟩

/-- Every event of a non-search run is a backoff, a non-search attempt, or a
non-search invocation. -/
theorem fetchNoSearch_events_false :
    ∀ retries k x, x ∈ (fetchNoSearch apiKey parse oracle now k retries).1 →
      x = Event.backoff 1500 ∨ x = Event.oracleAttempt false ∨
        ∃ n, x = Event.call n false := by
  intro retries
  induction retries with
  | zero =>
    intro k x hx
    unfold fetchNoSearch at hx
    by_cases h : keyMissing apiKey = true
    · simp [h] at hx
      exact Or.inr (Or.inr ⟨0, hx⟩)
    · simp only [Bool.not_eq_true] at h
      rcases hs : attemptStep parse (oracle k) false now with e | snap <;>
        simp [h, hs] at hx <;>
        rcases hx with hx | hx
      · exact Or.inr (Or.inr ⟨0, hx⟩)
      · exact Or.inr (Or.inl hx)
      · exact Or.inr (Or.inr ⟨0, hx⟩)
      · exact Or.inr (Or.inl hx)
  | succ r ih =>
    intro k x hx
    unfold fetchNoSearch at hx
    by_cases h : keyMissing apiKey = true
    · simp [h] at hx
      exact Or.inr (Or.inr ⟨r + 1, hx⟩)
    · simp only [Bool.not_eq_true] at h
      rcases hs : attemptStep parse (oracle k) false now with e | snap
      · simp [h, hs] at hx
        rcases hx with hx | hx | hx | hx
        · exact Or.inr (Or.inr ⟨r + 1, hx⟩)
        · exact Or.inr (Or.inl hx)
        · exact Or.inl hx
        · exact ih (k + 1) x hx
      · simp [h, hs] at hx
        rcases hx with hx | hx
        · exact Or.inr (Or.inr ⟨r + 1, hx⟩)
        · exact Or.inr (Or.inl hx)

/-- With `useSearch = false` the orchestrator is exactly the non-search loop. -/
theorem fetchWeatherWithAI_false (r : Nat) :
    fetchWeatherWithAI apiKey parse oracle now r false =
      fetchNoSearch apiKey parse oracle now 0 r := rfl

/-- A search-mode invocation with the credential missing fails at once. -/
theorem fetchWeatherWithAI_true_key_missing (r : Nat) (h : keyMissing apiKey = true) :
    fetchWeatherWithAI apiKey parse oracle now r true =
      ([Event.call r true], Except.error FetchError.apiKeyMissing) := by
  unfold fetchWeatherWithAI
  simp [h]

/-- A search-mode invocation whose attempt succeeds returns its snapshot. -/
theorem fetchWeatherWithAI_true_ok (r : Nat) (snap : WeatherSnapshot)
    (h : keyMissing apiKey = false)
    (hs : attemptStep parse (oracle 0) true now = Except.ok snap) :
    fetchWeatherWithAI apiKey parse oracle now r true =
      ([Event.call r true, Event.oracleAttempt true], Except.ok snap) := by
  unfold fetchWeatherWithAI
  simp [h, hs]

/-- A search-mode invocation whose attempt fails downgrades immediately: the
whole run is the failed search attempt followed by exactly one budget-0
non-search invocation, whose result is returned. -/
theorem fetchWeatherWithAI_true_fail (r : Nat) (e : FetchError)
    (h : keyMissing apiKey = false)
    (he : attemptStep parse (oracle 0) true now = Except.error e) :
    fetchWeatherWithAI apiKey parse oracle now r true =
      ([Event.call r true, Event.oracleAttempt true,
        Event.call 0 false, Event.oracleAttempt false],
       (fetchNoSearch apiKey parse oracle now 1 0).2) := by
  have ht := fetchNoSearch_zero_trace apiKey parse oracle now 1 h
  unfold fetchWeatherWithAI
  simp [h, he, ht]

/-- Shape of a successful attempt: the snapshot is stamped with the wall clock
and with `isRealtime = useSearch && sources.length > 0`. -/
theorem attemptStep_ok_core (r : OracleResult) (s : Bool) (snap : WeatherSnapshot)
    (h : attemptStep parse r s now = Except.ok snap) :
    ∃ t chunks core, r = OracleResult.reply (some t) chunks ∧ t.isEmpty = false ∧
      parse t = some core ∧
      snap = { core := core, lastUpdated := now, sources := extractSources chunks,
               isRealtime := s && decide (0 < (extractSources chunks).length) } := by
  unfold attemptStep at h
  rcases r with _ | ⟨t, chunks⟩
  · simp at h
  · rcases t with _ | t
    · simp at h
    · by_cases ht : t.isEmpty = true
      · simp [ht] at h
      · simp only [Bool.not_eq_true] at ht
        rcases hp : parse t with _ | core
        · simp [ht, hp] at h
        · simp [ht, hp] at h
          exact ⟨t, chunks, core, rfl, ht, hp, h.symm⟩

/-- Shape of a successful attempt: the snapshot is stamped with the wall clock
and with `isRealtime = useSearch && sources.length > 0`. -/
theorem attemptStep_ok_shape (r : OracleResult) (s : Bool) (snap : WeatherSnapshot)
    (h : attemptStep parse r s now = Except.ok snap) :
    snap.lastUpdated = now ∧
      snap.isRealtime = (s && decide (0 < snap.sources.length)) := by
  rcases attemptStep_ok_core parse now r s snap h with ⟨t, chunks, core, _, _, _, hsnap⟩
  subst hsnap
  exact ⟨rfl, rfl⟩

/-- Computation of a successful attempt from a well-formed reply. -/
theorem attemptStep_reply_ok (t : String) (chunks : Option (List Chunk)) (s : Bool)
    (core : WeatherCore) (ht : t.isEmpty = false) (hp : parse t = some core) :
    attemptStep parse (OracleResult.reply (some t) chunks) s now =
      Except.ok { core := core, lastUpdated := now, sources := extractSources chunks,
                  isRealtime := s && decide (0 < (extractSources chunks).length) } := by
  unfold attemptStep
  simp [ht, hp]

/-- Every snapshot produced by the non-search loop comes from a successful
non-search attempt. -/
theorem fetchNoSearch_ok_source :
    ∀ retries k snap, (fetchNoSearch apiKey parse oracle now k retries).2 = Except.ok snap →
      ∃ j, attemptStep parse (oracle j) false now = Except.ok snap := by
  intro retries
  induction retries with
  | zero =>
    intro k snap hk
    unfold fetchNoSearch at hk
    by_cases h : keyMissing apiKey = true
    · simp [h] at hk
    · simp only [Bool.not_eq_true] at h
      rcases hs : attemptStep parse (oracle k) false now with e | s2
      · simp [h, hs] at hk
      · simp [h, hs] at hk
        exact ⟨k, hk ▸ hs⟩
  | succ r ih =>
    intro k snap hk
    unfold fetchNoSearch at hk
    by_cases h : keyMissing apiKey = true
    · simp [h] at hk
    · simp only [Bool.not_eq_true] at h
      rcases hs : attemptStep parse (oracle k) false now with e | s2
      · simp [h, hs] at hk
        exact ih (k + 1) snap hk
      · simp [h, hs] at hk
        exact ⟨k, hk ▸ hs⟩

/-- Every snapshot returned by the orchestrator comes from a successful attempt. -/
theorem fetchWeatherWithAI_ok_source (r : Nat) (s : Bool) (snap : WeatherSnapshot)
    (h : (fetchWeatherWithAI apiKey parse oracle now r s).2 = Except.ok snap) :
    ∃ j s2, attemptStep parse (oracle j) s2 now = Except.ok snap := by
  rcases s with _ | _
  · rw [fetchWeatherWithAI_false] at h
    rcases fetchNoSearch_ok_source apiKey parse oracle now r 0 snap h with ⟨j, hj⟩
    exact ⟨j, false, hj⟩
  · unfold fetchWeatherWithAI at h
    by_cases hk : keyMissing apiKey = true
    · simp [hk] at h
    · simp only [Bool.not_eq_true] at hk
      rcases hs : attemptStep parse (oracle 0) true now with e | s2
      · simp [hk, hs] at h
        rcases fetchNoSearch_ok_source apiKey parse oracle now 0 1 snap h with ⟨j, hj⟩
        exact ⟨j, false, hj⟩
      · simp [hk, hs] at h
        exact ⟨0, true, h ▸ hs⟩

/-- The non-search loop never issues a search-enabled attempt. -/
theorem no_search_attempt_in_noSearch (retries k : Nat) :
    Event.oracleAttempt true ∉ (fetchNoSearch apiKey parse oracle now k retries).1 := by
  intro hmem
  rcases fetchNoSearch_events_false apiKey parse oracle now retries k _ hmem with
    h | h | ⟨n, h⟩ <;> simp at h

/-- A run that starts in search mode never backs off: the downgrade enters the
non-search loop with budget 0, which cannot retry. -/
theorem no_backoff_in_search_run (r b : Nat) :
    Event.backoff b ∉ (fetchWeatherWithAI apiKey parse oracle now r true).1 := by
  by_cases h : keyMissing apiKey = true
  · rw [fetchWeatherWithAI_true_key_missing apiKey parse oracle now r h]
    simp
  · simp only [Bool.not_eq_true] at h
    rcases hs : attemptStep parse (oracle 0) true now with e | snap
    · rw [fetchWeatherWithAI_true_fail apiKey parse oracle now r e h hs]
      simp
    · rw [fetchWeatherWithAI_true_ok apiKey parse oracle now r snap h hs]
      simp

/-- The non-search loop makes no search-enabled attempt, counted form. -/
theorem searchAttemptCount_fetchNoSearch (retries k : Nat) :
    searchAttemptCount (fetchNoSearch apiKey parse oracle now k retries).1 = 0 := by
  rw [searchAttemptCount, List.countP_eq_zero]
  intro a ha
  rcases fetchNoSearch_events_false apiKey parse oracle now retries k a ha with
    h | h | ⟨n, h⟩ <;> subst h <;> simp [isSearchAttemptEvent]

/-- The non-search loop with budget `retries` makes at most `retries + 1`
oracle attempts. -/
theorem attemptCount_fetchNoSearch :
    ∀ retries k, attemptCount (fetchNoSearch apiKey parse oracle now k retries).1 ≤
      retries + 1 := by
  intro retries
  induction retries with
  | zero =>
    intro k
    by_cases h : keyMissing apiKey = true
    · rw [fetchNoSearch_key_missing apiKey parse oracle now k 0 h]
      simp [attemptCount, List.countP_cons, List.countP_nil, isAttemptEvent]
    · simp only [Bool.not_eq_true] at h
      rw [attemptCount, fetchNoSearch_zero_trace apiKey parse oracle now k h]
      simp [List.countP_cons, List.countP_nil, isAttemptEvent]
  | succ r ih =>
    intro k
    by_cases h : keyMissing apiKey = true
    · rw [fetchNoSearch_key_missing apiKey parse oracle now k (r + 1) h]
      simp [attemptCount, List.countP_cons, List.countP_nil, isAttemptEvent]
    · simp only [Bool.not_eq_true] at h
      rcases hs : attemptStep parse (oracle k) false now with e | snap
      · rw [fetchNoSearch_error_succ apiKey parse oracle now k r e h hs]
        have hr := ih (k + 1)
        simp [attemptCount, List.countP_cons, isAttemptEvent] at hr ⊢
        omega
      · rw [fetchNoSearch_ok apiKey parse oracle now k (r + 1) snap h hs]
        simp [attemptCount, List.countP_cons, List.countP_nil, isAttemptEvent]

end Lemmas

/-- C1, counterexample.  The claim states that after a failed search-enabled
attempt the request is re-issued with the SAME retry budget `r`.  At the
concrete input budget `r = 1`, credential present, oracle always throwing, the
trace shows the re-issued request is invoked with budget 0 (`call 0 false`) and
no invocation with budget 1 in non-search mode ever occurs. -/
theorem C1_downgrade_budget_counterexample :
    (fetchWeatherWithAI (some "k") noParse throwOracle "t" 1 true).1 =
      [Event.call 1 true, Event.oracleAttempt true, Event.call 0 false,
       Event.oracleAttempt false] ∧
    Event.call 1 false ∉
      (fetchWeatherWithAI (some "k") noParse throwOracle "t" 1 true).1 := by
  decide

/-- C1, amended.  If the oracle attempt fails for any reason while search is
enabled, the orchestrator immediately re-issues the whole request exactly once
with search disabled, and the retry budget passed to that re-issued request is
0 regardless of the original budget `r`: the downgrade transition resets the
retry budget to zero, so the downgraded request never backs off or retries. -/
theorem C1_downgrade_resets_budget (apiKey : Option String)
    (parse : String → Option WeatherCore) (oracle : Nat → OracleResult)
    (now : String) (r : Nat) (e : FetchError)
    (hk : keyMissing apiKey = false)
    (he : attemptStep parse (oracle 0) true now = Except.error e) :
    fetchWeatherWithAI apiKey parse oracle now r true =
      ([Event.call r true, Event.oracleAttempt true, Event.call 0 false,
        Event.oracleAttempt false],
       (fetchNoSearch apiKey parse oracle now 1 0).2) :=
  fetchWeatherWithAI_true_fail apiKey parse oracle now r e hk he

/-- Witness for C1 at budget 3 with a throwing oracle. -/
theorem C1_downgrade_resets_budget_witness :
    fetchWeatherWithAI (some "k") noParse throwOracle "t" 3 true =
      ([Event.call 3 true, Event.oracleAttempt true, Event.call 0 false,
        Event.oracleAttempt false],
       (fetchNoSearch (some "k") noParse throwOracle "t" 1 0).2) :=
  C1_downgrade_resets_budget (some "k") noParse throwOracle "t" 3
    FetchError.oracleThrow rfl rfl

/-- C2.  Every snapshot returned by a successful `fetchWeatherWithAI` run was
produced by some successful oracle attempt, and its realtime flag equals
(that attempt's `useSearch` AND its extracted sources list is non-empty); in
particular a true realtime flag forces a non-empty sources list. -/
theorem C2_realtime_flag (apiKey : Option String)
    (parse : String → Option WeatherCore) (oracle : Nat → OracleResult)
    (now : String) (r : Nat) (s : Bool) (snap : WeatherSnapshot)
    (h : (fetchWeatherWithAI apiKey parse oracle now r s).2 = Except.ok snap) :
    (∃ j s2, attemptStep parse (oracle j) s2 now = Except.ok snap ∧
        snap.isRealtime = (s2 && decide (0 < snap.sources.length))) ∧
    (snap.isRealtime = true → snap.sources ≠ []) := by
  rcases fetchWeatherWithAI_ok_source apiKey parse oracle now r s snap h with ⟨j, s2, hj⟩
  have hshape := attemptStep_ok_shape parse now (oracle j) s2 snap hj
  refine ⟨⟨j, s2, hj, hshape.2⟩, fun hrt => ?_⟩
  have hand : (s2 && decide (0 < snap.sources.length)) = true := hshape.2 ▸ hrt
  have hlen : 0 < snap.sources.length :=
    of_decide_eq_true ((Bool.and_eq_true _ _).mp hand).2
  exact List.ne_nil_of_length_pos hlen

/-- Witness for C2 on a successful run whose reply carries no sources. -/
theorem C2_realtime_flag_witness :
    (∃ j s2, attemptStep mockParse (plainReplyOracle j) s2 "t" =
        Except.ok { core := sampleCore, lastUpdated := "t", sources := [],
                    isRealtime := false } ∧
        (false : Bool) = (s2 && decide (0 < ([] : List Source).length))) ∧
    ((false : Bool) = true → ([] : List Source) ≠ []) :=
  C2_realtime_flag (some "k") mockParse plainReplyOracle "t" 1 true
    { core := sampleCore, lastUpdated := "t", sources := [], isRealtime := false }
    (by decide)

/-- C3.  With the oracle credential missing from process-wide state, every
invocation fails immediately with the `API_KEY_MISSING` error: the whole run is
the single invocation event, zero oracle attempts occur, and no retry or
downgrade happens. -/
theorem C3_missing_credential (apiKey : Option String)
    (parse : String → Option WeatherCore) (oracle : Nat → OracleResult)
    (now : String) (r : Nat) (s : Bool)
    (hk : keyMissing apiKey = true) :
    fetchWeatherWithAI apiKey parse oracle now r s =
      ([Event.call r s], Except.error FetchError.apiKeyMissing) ∧
    attemptCount (fetchWeatherWithAI apiKey parse oracle now r s).1 = 0 := by
  have heq : fetchWeatherWithAI apiKey parse oracle now r s =
      ([Event.call r s], Except.error FetchError.apiKeyMissing) := by
    cases s
    · rw [fetchWeatherWithAI_false]
      exact fetchNoSearch_key_missing apiKey parse oracle now 0 r hk
    · exact fetchWeatherWithAI_true_key_missing apiKey parse oracle now r hk
  refine ⟨heq, ?_⟩
  rw [heq]
  simp [attemptCount, List.countP_cons, List.countP_nil, isAttemptEvent]

/-- Witness for C3 with an absent credential. -/
theorem C3_missing_credential_witness :
    fetchWeatherWithAI none noParse throwOracle "t" 1 true =
      ([Event.call 1 true], Except.error FetchError.apiKeyMissing) ∧
    attemptCount (fetchWeatherWithAI none noParse throwOracle "t" 1 true).1 = 0 :=
  C3_missing_credential none noParse throwOracle "t" 1 true rfl

/-- C4.  The probe `testApiConnection` is total over its outcomes: it returns
false when the credential is missing, false when the oracle call throws, false
when the reply carries no text, and otherwise returns true exactly when the
reply text contains the literal substring "OK". -/
theorem C4_testOracleConnection (apiKey : Option String) (o : TestOracle) :
    (keyMissing apiKey = true → testApiConnection apiKey o = false) ∧
    (o = TestOracle.throw → testApiConnection apiKey o = false) ∧
    (o = TestOracle.reply none → testApiConnection apiKey o = false) ∧
    (∀ s, keyMissing apiKey = false → o = TestOracle.reply (some s) →
      (testApiConnection apiKey o = true ↔ strIncludes s "OK" = true)) := by
  refine ⟨fun hk => by simp [testApiConnection, hk], ?_, ?_, ?_⟩
  · rintro rfl
    by_cases hk : keyMissing apiKey = true <;> simp [testApiConnection, hk]
  · rintro rfl
    by_cases hk : keyMissing apiKey = true <;> simp [testApiConnection, hk]
  · rintro s hk rfl
    simp [testApiConnection, hk]

/-- Witness for C4 on a reply containing "OK". -/
theorem C4_testOracleConnection_witness :
    testApiConnection (some "k") (TestOracle.reply (some "well OK then")) = true :=
  ((C4_testOracleConnection (some "k")
      (TestOracle.reply (some "well OK then"))).2.2.2 "well OK then"
    rfl rfl).mpr (by decide)

/-- C5.  In non-search mode with the credential present: a failed attempt with
budget left backs off 1500 ms, decrements the budget, and retries in non-search
mode; a failed attempt with no budget propagates its error; and with budget 1
under persistent failures, the run is exactly two non-search attempts separated
by one backoff, ending with the second attempt's error. -/
theorem C5_nonsearch_retry_policy (apiKey : Option String)
    (parse : String → Option WeatherCore) (oracle : Nat → OracleResult)
    (now : String) (hk : keyMissing apiKey = false) :
    (∀ r e, attemptStep parse (oracle 0) false now = Except.error e →
        fetchWeatherWithAI apiKey parse oracle now (r + 1) false =
          (Event.call (r + 1) false :: Event.oracleAttempt false ::
            Event.backoff 1500 :: (fetchNoSearch apiKey parse oracle now 1 r).1,
           (fetchNoSearch apiKey parse oracle now 1 r).2)) ∧
    (∀ e, attemptStep parse (oracle 0) false now = Except.error e →
        fetchWeatherWithAI apiKey parse oracle now 0 false =
          ([Event.call 0 false, Event.oracleAttempt false], Except.error e)) ∧
    (∀ e1 e2, attemptStep parse (oracle 0) false now = Except.error e1 →
        attemptStep parse (oracle 1) false now = Except.error e2 →
        fetchWeatherWithAI apiKey parse oracle now 1 false =
          ([Event.call 1 false, Event.oracleAttempt false, Event.backoff 1500,
            Event.call 0 false, Event.oracleAttempt false], Except.error e2) ∧
        attemptCount (fetchWeatherWithAI apiKey parse oracle now 1 false).1 = 2) := by
  refine ⟨?_, ?_, ?_⟩
  · intro r e he
    rw [fetchWeatherWithAI_false]
    exact fetchNoSearch_error_succ apiKey parse oracle now 0 r e hk he
  · intro e he
    rw [fetchWeatherWithAI_false]
    exact fetchNoSearch_error_zero apiKey parse oracle now 0 e hk he
  · intro e1 e2 h1 h2
    have heq : fetchWeatherWithAI apiKey parse oracle now 1 false =
        ([Event.call 1 false, Event.oracleAttempt false, Event.backoff 1500,
          Event.call 0 false, Event.oracleAttempt false], Except.error e2) := by
      rw [fetchWeatherWithAI_false,
        fetchNoSearch_error_succ apiKey parse oracle now 0 0 e1 hk h1,
        fetchNoSearch_error_zero apiKey parse oracle now 1 e2 hk h2]
    refine ⟨heq, ?_⟩
    rw [heq]
    simp [attemptCount, List.countP_cons, List.countP_nil, isAttemptEvent]

/-- Witness for C5: budget 1, persistent failures, exactly two attempts. -/
theorem C5_nonsearch_retry_policy_witness :
    fetchWeatherWithAI (some "k") noParse throwOracle "t" 1 false =
      ([Event.call 1 false, Event.oracleAttempt false, Event.backoff 1500,
        Event.call 0 false, Event.oracleAttempt false],
       Except.error FetchError.oracleThrow) ∧
    attemptCount (fetchWeatherWithAI (some "k") noParse throwOracle "t" 1 false).1 = 2 :=
  (C5_nonsearch_retry_policy (some "k") noParse throwOracle "t" rfl).2.2
    FetchError.oracleThrow FetchError.oracleThrow rfl rfl

/-- C6.  Temporal ordering: when a search-enabled attempt fails, the follow-up
non-search request is issued immediately — the whole trace is the failed search
attempt followed by the downgraded attempt, with no backoff anywhere; and in
every run, no search-enabled attempt ever occurs after a backoff event, so
backoff waiting happens only on attempts where search is already disabled. -/
theorem C6_downgrade_before_backoff :
    (∀ (apiKey : Option String) (parse : String → Option WeatherCore)
        (oracle : Nat → OracleResult) (now : String) (r : Nat) (e : FetchError),
        keyMissing apiKey = false →
        attemptStep parse (oracle 0) true now = Except.error e →
        (fetchWeatherWithAI apiKey parse oracle now r true).1 =
          [Event.call r true, Event.oracleAttempt true,
           Event.call 0 false, Event.oracleAttempt false]) ∧
    (∀ (apiKey : Option String) (parse : String → Option WeatherCore)
        (oracle : Nat → OracleResult) (now : String) (r : Nat) (s : Bool)
        (l1 : List Event) (b : Nat) (l2 : List Event),
        (fetchWeatherWithAI apiKey parse oracle now r s).1 =
          l1 ++ Event.backoff b :: l2 →
        Event.oracleAttempt true ∉ l2) := by
  constructor
  · intro apiKey parse oracle now r e hk he
    rw [fetchWeatherWithAI_true_fail apiKey parse oracle now r e hk he]
  · intro apiKey parse oracle now r s l1 b l2 htr hmem
    cases s
    · have hin : Event.oracleAttempt true ∈
          (fetchWeatherWithAI apiKey parse oracle now r false).1 := by
        rw [htr]
        exact List.mem_append_right l1 (List.mem_cons_of_mem _ hmem)
      rw [fetchWeatherWithAI_false] at hin
      exact no_search_attempt_in_noSearch apiKey parse oracle now r 0 hin
    · have hin : Event.backoff b ∈
          (fetchWeatherWithAI apiKey parse oracle now r true).1 := by
        rw [htr]
        exact List.mem_append_right l1 (List.mem_cons_self _ _)
      exact no_backoff_in_search_run apiKey parse oracle now r b hin

/-- Witness for C6: the downgraded attempt follows the failed search attempt
with no backoff in between. -/
theorem C6_downgrade_before_backoff_witness :
    (fetchWeatherWithAI (some "k") noParse throwOracle "t" 1 true).1 =
      [Event.call 1 true, Event.oracleAttempt true, Event.call 0 false,
       Event.oracleAttempt false] :=
  C6_downgrade_before_backoff.1 (some "k") noParse throwOracle "t" 1
    FetchError.oracleThrow rfl rfl

/-- C7.  Round trip: when the first oracle reply is well formed (non-empty text
that parses to a payload), the returned snapshot carries that payload verbatim,
and differs from it only in the three injected fields: the timestamp, the
extracted sources, and the realtime flag. -/
theorem C7_roundtrip (apiKey : Option String) (parse : String → Option WeatherCore)
    (oracle : Nat → OracleResult) (now : String) (r : Nat) (s : Bool)
    (t : String) (chunks : Option (List Chunk)) (core : WeatherCore)
    (hk : keyMissing apiKey = false)
    (ho : oracle 0 = OracleResult.reply (some t) chunks)
    (ht : t.isEmpty = false)
    (hp : parse t = some core) :
    (fetchWeatherWithAI apiKey parse oracle now r s).2 =
      Except.ok { core := core, lastUpdated := now,
                  sources := extractSources chunks,
                  isRealtime := s && decide (0 < (extractSources chunks).length) } := by
  have hstep : attemptStep parse (oracle 0) s now = Except.ok
      { core := core, lastUpdated := now, sources := extractSources chunks,
        isRealtime := s && decide (0 < (extractSources chunks).length) } := by
    rw [ho]
    exact attemptStep_reply_ok parse now t chunks s core ht hp
  cases s
  · rw [fetchWeatherWithAI_false,
      fetchNoSearch_ok apiKey parse oracle now 0 r _ hk hstep]
  · rw [fetchWeatherWithAI_true_ok apiKey parse oracle now r _ hk hstep]

/-- Witness for C7 on a reply with two grounding chunks. -/
theorem C7_roundtrip_witness :
    (fetchWeatherWithAI (some "k") mockParse chunkOracle "t" 1 true).2 =
      Except.ok { core := sampleCore, lastUpdated := "t",
                  sources := extractSources (some sampleChunks),
                  isRealtime :=
                    true && decide (0 < (extractSources (some sampleChunks)).length) } :=
  C7_roundtrip (some "k") mockParse chunkOracle "t" 1 true "x" (some sampleChunks)
    sampleCore rfl rfl rfl rfl

/-- C8.  An empty reply (absent or empty text) fails the attempt with
`AI_EMPTY_RESPONSE`, an unparsable reply fails it with a parse error, and any
failed attempt — whatever its error — follows exactly the same policy: the
single immediate downgrade when search is on, the backoff-retry when search is
off with budget left, and propagation when the budget is exhausted. -/
theorem C8_empty_reply_policy (apiKey : Option String)
    (parse : String → Option WeatherCore) (oracle : Nat → OracleResult)
    (now : String) (hk : keyMissing apiKey = false) :
    (∀ chunks s2, attemptStep parse (OracleResult.reply none chunks) s2 now =
        Except.error FetchError.emptyResponse) ∧
    (∀ chunks s2, attemptStep parse (OracleResult.reply (some "") chunks) s2 now =
        Except.error FetchError.emptyResponse) ∧
    (∀ t chunks s2, String.isEmpty t = false → parse t = none →
        attemptStep parse (OracleResult.reply (some t) chunks) s2 now =
          Except.error FetchError.parseError) ∧
    (∀ r e, attemptStep parse (oracle 0) true now = Except.error e →
        fetchWeatherWithAI apiKey parse oracle now r true =
          ([Event.call r true, Event.oracleAttempt true, Event.call 0 false,
            Event.oracleAttempt false],
           (fetchNoSearch apiKey parse oracle now 1 0).2)) ∧
    (∀ r e, attemptStep parse (oracle 0) false now = Except.error e →
        fetchWeatherWithAI apiKey parse oracle now (r + 1) false =
          (Event.call (r + 1) false :: Event.oracleAttempt false ::
            Event.backoff 1500 :: (fetchNoSearch apiKey parse oracle now 1 r).1,
           (fetchNoSearch apiKey parse oracle now 1 r).2)) ∧
    (∀ e, attemptStep parse (oracle 0) false now = Except.error e →
        fetchWeatherWithAI apiKey parse oracle now 0 false =
          ([Event.call 0 false, Event.oracleAttempt false], Except.error e)) := by
  refine ⟨fun chunks s2 => rfl, fun chunks s2 => rfl, ?_, ?_, ?_, ?_⟩
  · intro t chunks s2 ht hp
    unfold attemptStep
    simp [ht, hp]
  · intro r e he
    exact fetchWeatherWithAI_true_fail apiKey parse oracle now r e hk he
  · intro r e he
    rw [fetchWeatherWithAI_false]
    exact fetchNoSearch_error_succ apiKey parse oracle now 0 r e hk he
  · intro e he
    rw [fetchWeatherWithAI_false]
    exact fetchNoSearch_error_zero apiKey parse oracle now 0 e hk he

/-- Witness for C8: an empty-text reply with search on takes the downgrade path. -/
theorem C8_empty_reply_policy_witness :
    fetchWeatherWithAI (some "k") noParse emptyReplyOracle "t" 1 true =
      ([Event.call 1 true, Event.oracleAttempt true, Event.call 0 false,
        Event.oracleAttempt false],
       (fetchNoSearch (some "k") noParse emptyReplyOracle "t" 1 0).2) :=
  (C8_empty_reply_policy (some "k") noParse emptyReplyOracle "t" rfl).2.2.2.1 1
    FetchError.emptyResponse rfl

/-- C9.  Provenance extraction is total: absent grounding metadata yields the
empty sources list and the call still succeeds (with realtime false), a chunk
without a `web` object gets both defaults, a present chunk with a missing title
defaults to the placeholder, and a missing uri defaults to "#". -/
theorem C9_provenance_total (apiKey : Option String)
    (parse : String → Option WeatherCore) (oracle : Nat → OracleResult)
    (now : String) :
    extractSources none = [] ∧
    (∀ c : Chunk, c.web = none →
        sourceOfChunk c = { title := "氣象來源", uri := "#" }) ∧
    (∀ (c : Chunk) (w : WebInfo), c.web = some w → w.title = none →
        (sourceOfChunk c).title = "氣象來源") ∧
    (∀ (c : Chunk) (w : WebInfo), c.web = some w → w.uri = none →
        (sourceOfChunk c).uri = "#") ∧
    (∀ (r : Nat) (s : Bool) (t : String) (core : WeatherCore),
        keyMissing apiKey = false →
        oracle 0 = OracleResult.reply (some t) none →
        String.isEmpty t = false → parse t = some core →
        (fetchWeatherWithAI apiKey parse oracle now r s).2 =
          Except.ok { core := core, lastUpdated := now, sources := [],
                      isRealtime := false }) := by
  refine ⟨rfl, ?_, ?_, ?_, ?_⟩
  · intro c hc
    simp [sourceOfChunk, hc, jsOrElse]
  · intro c w hc hw
    simp [sourceOfChunk, hc, hw, jsOrElse, Option.bind]
  · intro c w hc hw
    simp [sourceOfChunk, hc, hw, jsOrElse, Option.bind]
  · intro r s t core hk ho ht hp
    have hstep : attemptStep parse (oracle 0) s now = Except.ok
        { core := core, lastUpdated := now, sources := [], isRealtime := false } := by
      rw [ho]
      have h := attemptStep_reply_ok parse now t none s core ht hp
      simpa [extractSources] using h
    cases s
    · rw [fetchWeatherWithAI_false,
        fetchNoSearch_ok apiKey parse oracle now 0 r _ hk hstep]
    · rw [fetchWeatherWithAI_true_ok apiKey parse oracle now r _ hk hstep]

/-- Witness for C9: a sourceless reply still succeeds, flagged non-realtime. -/
theorem C9_provenance_total_witness :
    (fetchWeatherWithAI (some "k") mockParse plainReplyOracle "t" 1 true).2 =
      Except.ok { core := sampleCore, lastUpdated := "t", sources := [],
                  isRealtime := false } :=
  (C9_provenance_total (some "k") mockParse plainReplyOracle "t").2.2.2.2 1 true "x"
    sampleCore rfl rfl rfl rfl

/-- C10.  Resource bound: every run terminates and makes at most `r + 2` oracle
attempts for initial budget `r`, of which at most one has search enabled. -/
theorem C10_attempt_bound (apiKey : Option String)
    (parse : String → Option WeatherCore) (oracle : Nat → OracleResult)
    (now : String) (r : Nat) (s : Bool) :
    attemptCount (fetchWeatherWithAI apiKey parse oracle now r s).1 ≤ r + 2 ∧
    searchAttemptCount (fetchWeatherWithAI apiKey parse oracle now r s).1 ≤ 1 := by
  cases s
  · rw [fetchWeatherWithAI_false]
    constructor
    · have h := attemptCount_fetchNoSearch apiKey parse oracle now r 0
      omega
    · rw [searchAttemptCount_fetchNoSearch apiKey parse oracle now r 0]
      omega
  · by_cases hk : keyMissing apiKey = true
    · rw [fetchWeatherWithAI_true_key_missing apiKey parse oracle now r hk]
      exact ⟨by show (0 : Nat) ≤ r + 2; omega, by show (0 : Nat) ≤ 1; omega⟩
    · simp only [Bool.not_eq_true] at hk
      rcases hs : attemptStep parse (oracle 0) true now with e | snap
      · rw [fetchWeatherWithAI_true_fail apiKey parse oracle now r e hk hs]
        exact ⟨by show (2 : Nat) ≤ r + 2; omega, by show (1 : Nat) ≤ 1; omega⟩
      · rw [fetchWeatherWithAI_true_ok apiKey parse oracle now r snap hk hs]
        exact ⟨by show (1 : Nat) ≤ r + 2; omega, by show (1 : Nat) ≤ 1; omega⟩

end Climate
